import Mathlib

/-!
Shallow embedding of `src/client/src/hooks/useAuth.ts` from the
Decentralised-X client.

The hook exposes two entry points:
  * `handleGoogleAuth` — the combined federated (Google) + wallet flow;
  * `connectWallet`    — the wallet-only SIWE flow, which chains
    `handleMetaMaskLogin`, `getSiweMessage`, `signMessage`, `verifySignature`.

The embedding models every external collaborator (Google sign-in, the
injected wallet provider, the two backend endpoints, the signer) as an
`Env` of pre-determined responses, and every observable side effect
(toast notifications, `dispatch(setUser ...)` publications, navigation,
HTTP posts, wallet prompts) as an event appended to a trace, in the order
the source performs them.  Flow functions return the trace of events.
-/

/-! ## Checksum address normalization (`ethers.utils.getAddress`)

Modelled from the spec: the repository calls `ethers.utils.getAddress`
(third-party library, source not in the repository); the spec describes it
as normalization of a wallet address to canonical checksummed form
(EIP-55).  The model is parameterized by the hash nibble function
(keccak-256 of the lowercase hex body in the real library); the ICAP
address form accepted by the library is out of scope (the spec speaks only
of hex addresses). -/

def isHexChar (c : Char) : Bool :=
  (('0' ≤ c) && (c ≤ '9')) || (('a' ≤ c) && (c ≤ 'f')) || (('A' ≤ c) && (c ≤ 'F'))

def isUpperHexLetter (c : Char) : Bool := ('A' ≤ c) && (c ≤ 'F')

def isLowerHexLetter (c : Char) : Bool := ('a' ≤ c) && (c ≤ 'f')

/-- Lowercasing restricted to the characters that can occur in a validated
hex address body (`String.prototype.toLowerCase` agrees with this on that
domain). -/
def lowerHexChar (c : Char) : Char :=
  if c = 'A' then 'a' else if c = 'B' then 'b' else if c = 'C' then 'c'
  else if c = 'D' then 'd' else if c = 'E' then 'e' else if c = 'F' then 'f'
  else c

/-- Uppercasing restricted to hex characters (`toUpperCase` on the digits
of a hex body is the identity, so only letters move). -/
def upperHexChar (c : Char) : Char :=
  if c = 'a' then 'A' else if c = 'b' then 'B' else if c = 'c' then 'C'
  else if c = 'd' then 'D' else if c = 'e' then 'E' else if c = 'f' then 'F'
  else c

/-- The per-character casing pass of `getChecksumAddress`: character `i` of
the lowercase body is uppercased when the `i`-th nibble of the hash is at
least 8. -/
def checksumChars (nib : Nat → Nat) : Nat → List Char → List Char
  | _, [] => []
  | i, c :: cs => (if 8 ≤ nib i then upperHexChar c else c) :: checksumChars nib (i + 1) cs

/-- The regex gate of `getAddress`: `^(0x)?[0-9a-fA-F]{40}$`, returning the
40-character body. -/
def hexBody (cs : List Char) : Option (List Char) :=
  if cs.length = 42 && decide (cs.take 2 = ['0', 'x']) && (cs.drop 2).all isHexChar then
    some (cs.drop 2)
  else if cs.length = 40 && cs.all isHexChar then
    some cs
  else
    none

/-- `ethers.utils.getAddress` (v5): validate the hex form, checksum the
lowercase body, and reject a mixed-case input whose casing differs from
the computed checksum.  `none` models the thrown `invalid address` /
`bad address checksum` errors. -/
def getAddress (nib : List Char → Nat → Nat) (s : String) : Option String :=
  match hexBody s.data with
  | none => none
  | some body =>
    let low := body.map lowerHexChar
    let res : List Char := '0' :: 'x' :: checksumChars (nib low) 0 low
    let addr : List Char := '0' :: 'x' :: body
    if (addr.any isUpperHexLetter && addr.any isLowerHexLetter) && (res != addr) then
      none
    else
      some ⟨res⟩

/-! ## Data model

`SessionRecord` mirrors the payload of `dispatch(setUser {...})`: the
`user` object (name, avatar, optional walletAddress) plus the `token`
field.  JS-falsy fields (`displayName`, `photoURL`, `accessToken`,
`window.location.hostname`, `window.location.origin`) are modelled as
`Option String`, `none` covering both absence and the empty string, so
`x || d` becomes `x.getD d`. -/

structure SessionUser where
  name : String
  avatar : String
  walletAddress : Option String
  deriving Repr, DecidableEq

structure SessionRecord where
  user : SessionUser
  token : String
  deriving Repr, DecidableEq

structure HttpRequest where
  method : String
  url : String
  body : List (String × String)
  deriving Repr, DecidableEq

inductive Severity where
  | success
  | error
  | warn
  | info
  deriving Repr, DecidableEq

/-- One observable side effect of the hook, in program order:
`toast.*` calls, `dispatch(setUser ...)` (publication into the Redux
session store), `navigate`, `axios.post` requests, the wallet's
`eth_requestAccounts` prompt, the signing prompt, and receipt of a
verification verdict from the verify endpoint. -/
inductive Event where
  | toast (sev : Severity) (msg : String)
  | publish (rec : SessionRecord)
  | navigate (route : String)
  | post (req : HttpRequest)
  | accountsPrompt
  | signPrompt (message : String)
  | verifyVerdict (success : Bool)
  deriving Repr, DecidableEq

/-- Outcome of `GoogleAuthProvider.credentialFromResult` /
`signInWithPopup`: the credential's access token and the user's profile
fields. -/
structure GoogleOk where
  accessToken : Option String
  displayName : Option String
  photoURL : Option String
  deriving Repr, DecidableEq

/-- `signInWithPopup` either resolves, or rejects with an error carrying
`code` and `message` (e.g. `auth/popup-closed-by-user`). -/
inductive GoogleResult where
  | ok (res : GoogleOk)
  | err (code : String) (msg : String)
  deriving Repr, DecidableEq

/-- Pre-determined responses of every external collaborator for one run:
Google sign-in, presence of `window.ethereum` (with a `request` method),
the `eth_requestAccounts` reply, `window.location` fields, the keccak
nibble oracle used by address checksumming, the challenge endpoint, the
wallet signer, and the verify endpoint (`Except.error` = rejected
promise / thrown error / non-2xx transport failure). -/
structure Env where
  google : GoogleResult
  ethereumPresent : Bool
  requestAccounts : Except Unit String
  hostname : Option String
  origin : Option String
  nib : List Char → Nat → Nat
  challenge : Except Unit String
  signOutcome : Except Unit String
  verify : Except Unit Bool

def METAMASK_BACKEND_URL : String := "http://localhost:3001/metamask"

def CLIENT_URL : String := "http://localhost:3000"

/-- Fallback avatar used by the combined Google flow. -/
def googleDefaultAvatar : String :=
  "https://cdn-icons-png.flaticon.com/128/3177/3177440.png"

/-- Default avatar used by the wallet-only flow. -/
def walletDefaultAvatar : String :=
  "https://cdn-icons-png.flaticon.com/128/10/10960.png"

/-- Hardcoded token dispatched by the wallet-only flow. -/
def placeholderToken : String := "jadfkklakssl"

/-- The challenge request of `getSiweMessage`: `axios.post` to
`METAMASK_BACKEND_URL/message` with JSON fields `address`, `domain`, `uri`. -/
def siweMessageRequest (address domain uri : String) : HttpRequest :=
  ⟨"POST", METAMASK_BACKEND_URL ++ "/message",
    [("address", address), ("domain", domain), ("uri", uri)]⟩

/-- The verify request of `verifySignature`: `axios.post` to
`METAMASK_BACKEND_URL/verify` with JSON fields `message`, `signature`. -/
def verifyRequest (message signature : String) : HttpRequest :=
  ⟨"POST", METAMASK_BACKEND_URL ++ "/verify",
    [("message", message), ("signature", signature)]⟩

/-! ## The flows (lines 27-260 of `useAuth.ts`) -/

/-- `getSiweMessage`: posts the challenge request; on success returns
`response.data`, on failure (network error or non-2xx) toasts an error
and returns `undefined`. -/
def getSiweMessage (env : Env) (address : String) : List Event × Option String :=
  let req := siweMessageRequest address (env.hostname.getD "localhost")
    (env.origin.getD CLIENT_URL)
  match env.challenge with
  | .ok msg => ([.post req], some msg)
  | .error _ =>
    ([.post req,
      .toast .error "Failed to authenticate with MetaMask. Please try again."], none)

/-- `signMessage`: asks the wallet signer for a signature over the
message; on rejection or error toasts and returns `undefined`. -/
def signMessage (env : Env) (message : String) : List Event × Option String :=
  match env.signOutcome with
  | .ok sig => ([.signPrompt message], some sig)
  | .error _ =>
    ([.signPrompt message,
      .toast .error "Failed to sign message. Please try again."], none)

/-- `verifySignature`: posts `(message, signature)` to the verify
endpoint.  `success: true` → success toast, dispatch of the wallet-only
`SessionRecord`, delayed navigation to `/home`; `success: false` →
error toast only; transport error → catch-block toast only. -/
def verifySignature (env : Env) (address message signature : String) : List Event :=
  let req := verifyRequest message signature
  match env.verify with
  | .error _ =>
    [.post req, .toast .error "Verification failed. Please try again."]
  | .ok true =>
    [.post req, .verifyVerdict true,
     .toast .success "Successfully authenticated with MetaMask!",
     .publish ⟨⟨"Anonymous", walletDefaultAvatar, some address⟩, placeholderToken⟩,
     .navigate "/home"]
  | .ok false =>
    [.post req, .verifyVerdict false, .toast .error "Authentication failed!"]

/-- `handleMetaMaskLogin`: challenge, sign, verify in sequence; a missing
message or signature throws, caught by its own catch block (one more
error toast).  `verifySignature` handles its own errors and never
throws into this catch. -/
def handleMetaMaskLogin (env : Env) (address : String) : List Event :=
  let step₁ := getSiweMessage env address
  match step₁.2 with
  | none => step₁.1 ++ [.toast .error "MetaMask login failed. Please try again."]
  | some message =>
    let step₂ := signMessage env message
    match step₂.2 with
    | none =>
      step₁.1 ++ step₂.1 ++ [.toast .error "MetaMask login failed. Please try again."]
    | some signature =>
      step₁.1 ++ step₂.1 ++ verifySignature env address message signature

/-- `connectWallet` (wallet-only flow): if a provider is injected,
request accounts, checksum the address, and run the SIWE login; a
rejected prompt or an invalid address lands in the catch block.  Without
a provider, only a warning toast. -/
def connectWallet (env : Env) : List Event :=
  if env.ethereumPresent then
    match env.requestAccounts with
    | .error _ =>
      [.accountsPrompt, .toast .error "Failed to connect wallet. Please try again."]
    | .ok raw =>
      match getAddress env.nib raw with
      | none =>
        [.accountsPrompt, .toast .error "Failed to connect wallet. Please try again."]
      | some address => .accountsPrompt :: handleMetaMaskLogin env address
  else
    [.toast .warn
      "MetaMask is not installed. Please install MetaMask to sign-up successfully."]

/-- The `SessionRecord` dispatched by the combined flow: federated
profile fields (with the source's fallbacks) plus an optional wallet
address. -/
def googleSession (res : GoogleOk) (token : String) (wallet : Option String) :
    SessionRecord :=
  ⟨⟨res.displayName.getD "User", res.photoURL.getD googleDefaultAvatar, wallet⟩, token⟩

/-- `handleGoogleAuth` (combined flow): Google popup sign-in, then a
best-effort wallet link.  With a provider: request accounts and checksum
the address; success dispatches the record **with** the wallet address
(no SIWE challenge, signing, or verification happens in this flow),
wallet-side failure dispatches the record without it; both navigate.
Without a provider: warn, dispatch without wallet, navigate.  Google-side
failures and a missing access token only toast. -/
def handleGoogleAuth (env : Env) : List Event :=
  match env.google with
  | .err code msg =>
    if code = "auth/popup-closed-by-user" then
      [.toast .info "Sign-in was cancelled"]
    else if code = "auth/network-request-failed" then
      [.toast .error "Network error. Please check your connection."]
    else
      [.toast .error ("Authentication failed: " ++ msg)]
  | .ok res =>
    match res.accessToken with
    | none => [.toast .error "Failed to get authentication token"]
    | some token =>
      if env.ethereumPresent then
        match env.requestAccounts with
        | .ok raw =>
          match getAddress env.nib raw with
          | some address =>
            [.accountsPrompt, .publish (googleSession res token (some address)),
             .toast .success "Successfully authenticated with Google and MetaMask!",
             .navigate "/home"]
          | none =>
            [.accountsPrompt,
             .toast .error "Failed to connect wallet. Please try again.",
             .publish (googleSession res token none), .navigate "/home"]
        | .error _ =>
          [.accountsPrompt,
           .toast .error "Failed to connect wallet. Please try again.",
           .publish (googleSession res token none), .navigate "/home"]
      else
        [.toast .warn "MetaMask is not installed. Continuing without wallet connection.",
         .publish (googleSession res token none), .navigate "/home"]

/-! ## Trace observations -/

/-- The session records published into the Redux store, in order. -/
def publishedRecords (evs : List Event) : List SessionRecord :=
  evs.filterMap fun e => match e with | .publish r => some r | _ => none

/-- The routes navigated to, in order. -/
def navigations (evs : List Event) : List String :=
  evs.filterMap fun e => match e with | .navigate r => some r | _ => none

/-- The HTTP requests sent, in order. -/
def postedRequests (evs : List Event) : List HttpRequest :=
  evs.filterMap fun e => match e with | .post r => some r | _ => none

/-- Whether the wallet signing prompt was ever shown. -/
def hasSignPrompt (evs : List Event) : Bool :=
  evs.any fun e => match e with | .signPrompt _ => true | _ => false

def isToastEvent (e : Event) : Bool :=
  match e with | .toast _ _ => true | _ => false

/-- Every publication carrying a wallet address happens strictly after a
`success: true` verdict was received from the verify endpoint (`seen`
tracks whether such a verdict has already occurred). -/
def verifiedPublishOk (seen : Bool) : List Event → Bool
  | [] => true
  | .verifyVerdict true :: rest => verifiedPublishOk true rest
  | .publish r :: rest => (r.user.walletAddress.isNone || seen) && verifiedPublishOk seen rest
  | _ :: rest => verifiedPublishOk seen rest

/-- Every navigation happens strictly after some session record was
published (`seen` tracks whether a publication has already occurred). -/
def navAfterPublish (seen : Bool) : List Event → Bool
  | [] => true
  | .publish _ :: rest => navAfterPublish true rest
  | .navigate _ :: rest => seen && navAfterPublish seen rest
  | _ :: rest => navAfterPublish seen rest

/-- The wallet step of the combined flow cannot proceed: no injected
provider, or the account request rejects (user declined / provider
error), or the returned address fails checksum validation. -/
def walletStepBlocked (env : Env) : Bool :=
  !env.ethereumPresent ||
    match env.requestAccounts with
    | .error _ => true
    | .ok raw => (getAddress env.nib raw).isNone

/-- The notification reporting a failed challenge request (the catch
block of `getSiweMessage`). -/
def challengeFailedReport : Event :=
  .toast .error "Failed to authenticate with MetaMask. Please try again."

/-- The notification reporting an explicit negative verdict (the else
branch of `verifySignature`). -/
def verificationDeniedReport : Event := .toast .error "Authentication failed!"

/-- The notification of the catch block of `verifySignature` (transport
errors only). -/
def verificationTransportReport : Event :=
  .toast .error "Verification failed. Please try again."

/-- The notification of the catch block of `handleMetaMaskLogin`. -/
def metamaskLoginFailedReport : Event :=
  .toast .error "MetaMask login failed. Please try again."

/-! ## Concrete environments used as witnesses -/

/-- All-zero wallet address: checksumming is the identity on it. -/
def zeroAddr : String := "0x0000000000000000000000000000000000000000"

/-- Degenerate hash oracle: every nibble 0 (so checksumming never
uppercases). -/
def zeroNib : List Char → Nat → Nat := fun _ _ => 0

def upperAAddr : String := "0xAAAAAAAAAAAAAAAAAAAAAAAAAAAAAAAAAAAAAAAA"

def lowerAAddr : String := "0xaaaaaaaaaaaaaaaaaaaaaaaaaaaaaaaaaaaaaaaa"

def demoGoogle : GoogleOk :=
  ⟨some "google-token", some "Alice", some "https://example.com/alice.png"⟩

/-- Combined flow, everything available and succeeding. -/
def envCombinedHappy : Env :=
  ⟨.ok demoGoogle, true, .ok zeroAddr, none, none, zeroNib,
   .ok "siwe-message", .ok "siwe-signature", .ok true⟩

/-- Wallet-only flow, everything succeeding (Google never consulted). -/
def envWalletHappy : Env :=
  ⟨.err "unused" "unused", true, .ok zeroAddr, none, none, zeroNib,
   .ok "siwe-message", .ok "siwe-signature", .ok true⟩

/-- Wallet-only flow, verifier answers success: false. -/
def envWalletDenied : Env :=
  ⟨.err "unused" "unused", true, .ok zeroAddr, none, none, zeroNib,
   .ok "siwe-message", .ok "siwe-signature", .ok false⟩

/-- Wallet-only flow, challenge endpoint unreachable. -/
def envChallengeDown : Env :=
  ⟨.err "unused" "unused", true, .ok zeroAddr, none, none, zeroNib,
   .error (), .ok "siwe-signature", .ok true⟩

/-- Combined flow, no injected wallet provider. -/
def envWalletAbsent : Env :=
  ⟨.ok demoGoogle, false, .ok zeroAddr, none, none, zeroNib,
   .ok "siwe-message", .ok "siwe-signature", .ok true⟩

/-- Combined flow, user declines the account-access prompt. -/
def envPromptDeclined : Env :=
  ⟨.ok demoGoogle, true, .error (), none, none, zeroNib,
   .ok "siwe-message", .ok "siwe-signature", .ok true⟩

/-- Combined flow, Google popup closed by the user. -/
def envGoogleClosed : Env :=
  ⟨.err "auth/popup-closed-by-user" "popup closed", true, .ok zeroAddr, none, none,
   zeroNib, .ok "siwe-message", .ok "siwe-signature", .ok true⟩

theorem upperHexChar_eq_self (c : Char) (h₁ : c ≠ 'a') (h₂ : c ≠ 'b') (h₃ : c ≠ 'c')
    (h₄ : c ≠ 'd') (h₅ : c ≠ 'e') (h₆ : c ≠ 'f') : upperHexChar c = c := by
  unfold upperHexChar
  split_ifs <;> first | rfl | simp_all

theorem lowerHexChar_eq_self (c : Char) (h₁ : c ≠ 'A') (h₂ : c ≠ 'B') (h₃ : c ≠ 'C')
    (h₄ : c ≠ 'D') (h₅ : c ≠ 'E') (h₆ : c ≠ 'F') : lowerHexChar c = c := by
  unfold lowerHexChar
  split_ifs <;> first | rfl | simp_all

theorem lowerHexChar_upperHexChar (c : Char) :
    lowerHexChar (upperHexChar c) = lowerHexChar c := by
  by_cases h₁ : c = 'a'
  · subst h₁; rfl
  by_cases h₂ : c = 'b'
  · subst h₂; rfl
  by_cases h₃ : c = 'c'
  · subst h₃; rfl
  by_cases h₄ : c = 'd'
  · subst h₄; rfl
  by_cases h₅ : c = 'e'
  · subst h₅; rfl
  by_cases h₆ : c = 'f'
  · subst h₆; rfl
  rw [upperHexChar_eq_self c h₁ h₂ h₃ h₄ h₅ h₆]

theorem lowerHexChar_idem (c : Char) :
    lowerHexChar (lowerHexChar c) = lowerHexChar c := by
  by_cases h₁ : c = 'A'
  · subst h₁; rfl
  by_cases h₂ : c = 'B'
  · subst h₂; rfl
  by_cases h₃ : c = 'C'
  · subst h₃; rfl
  by_cases h₄ : c = 'D'
  · subst h₄; rfl
  by_cases h₅ : c = 'E'
  · subst h₅; rfl
  by_cases h₆ : c = 'F'
  · subst h₆; rfl
  simp [lowerHexChar_eq_self c h₁ h₂ h₃ h₄ h₅ h₆]

theorem isHexChar_lowerHexChar (c : Char) (h : isHexChar c = true) :
    isHexChar (lowerHexChar c) = true := by
  by_cases h₁ : c = 'A'
  · subst h₁; rfl
  by_cases h₂ : c = 'B'
  · subst h₂; rfl
  by_cases h₃ : c = 'C'
  · subst h₃; rfl
  by_cases h₄ : c = 'D'
  · subst h₄; rfl
  by_cases h₅ : c = 'E'
  · subst h₅; rfl
  by_cases h₆ : c = 'F'
  · subst h₆; rfl
  rw [lowerHexChar_eq_self c h₁ h₂ h₃ h₄ h₅ h₆]
  exact h

theorem isHexChar_upperHexChar (c : Char) (h : isHexChar c = true) :
    isHexChar (upperHexChar c) = true := by
  by_cases h₁ : c = 'a'
  · subst h₁; rfl
  by_cases h₂ : c = 'b'
  · subst h₂; rfl
  by_cases h₃ : c = 'c'
  · subst h₃; rfl
  by_cases h₄ : c = 'd'
  · subst h₄; rfl
  by_cases h₅ : c = 'e'
  · subst h₅; rfl
  by_cases h₆ : c = 'f'
  · subst h₆; rfl
  rw [upperHexChar_eq_self c h₁ h₂ h₃ h₄ h₅ h₆]
  exact h

theorem map_lower_checksumChars (nib : Nat → Nat) (i : Nat) (l : List Char) :
    (checksumChars nib i l).map lowerHexChar = l.map lowerHexChar := by
  induction l generalizing i with
  | nil => rfl
  | cons c cs ih =>
    simp only [checksumChars, List.map_cons, ih]
    split <;> simp [lowerHexChar_upperHexChar]

theorem checksumChars_length (nib : Nat → Nat) (i : Nat) (l : List Char) :
    (checksumChars nib i l).length = l.length := by
  induction l generalizing i with
  | nil => rfl
  | cons c cs ih => simp [checksumChars, ih]

theorem checksumChars_all_hex (nib : Nat → Nat) (i : Nat) (l : List Char)
    (h : l.all isHexChar = true) : (checksumChars nib i l).all isHexChar = true := by
  induction l generalizing i with
  | nil => rfl
  | cons c cs ih =>
    simp only [List.all_cons, Bool.and_eq_true] at h
    simp only [checksumChars, List.all_cons, Bool.and_eq_true]
    refine ⟨?_, ih (i + 1) h.2⟩
    split
    · exact isHexChar_upperHexChar c h.1
    · exact h.1

theorem map_lowerHexChar_idem (l : List Char) :
    (l.map lowerHexChar).map lowerHexChar = l.map lowerHexChar := by
  induction l with
  | nil => rfl
  | cons c cs ih => simp [lowerHexChar_idem, ih]

theorem map_lower_all_hex (l : List Char) (h : l.all isHexChar = true) :
    (l.map lowerHexChar).all isHexChar = true := by
  induction l with
  | nil => rfl
  | cons c cs ih =>
    simp only [List.all_cons, Bool.and_eq_true] at h
    simp only [List.map_cons, List.all_cons, Bool.and_eq_true]
    exact ⟨isHexChar_lowerHexChar c h.1, ih h.2⟩

theorem hexBody_spec (cs body : List Char) (h : hexBody cs = some body) :
    body.length = 40 ∧ body.all isHexChar = true := by
  unfold hexBody at h
  split_ifs at h with h₁ h₂
  · simp only [Bool.and_eq_true, decide_eq_true_eq] at h₁
    obtain ⟨⟨hlen, _⟩, hhex⟩ := h₁
    cases h
    constructor
    · simp only [List.length_drop]
      omega
    · exact hhex
  · simp only [Bool.and_eq_true, decide_eq_true_eq] at h₂
    cases h
    exact ⟨h₂.1, h₂.2⟩

theorem getAddress_shape (nib : List Char → Nat → Nat) (s b : String)
    (h : getAddress nib s = some b) :
    ∃ body, hexBody s.data = some body ∧
      b = ⟨'0' :: 'x' ::
        checksumChars (nib (body.map lowerHexChar)) 0 (body.map lowerHexChar)⟩ := by
  unfold getAddress at h
  cases hb : hexBody s.data with
  | none => rw [hb] at h; cases h
  | some body =>
    rw [hb] at h
    simp only at h
    refine ⟨body, rfl, ?_⟩
    split_ifs at h
    cases h
    rfl

theorem getAddress_idem (nib : List Char → Nat → Nat) (s b : String)
    (h : getAddress nib s = some b) : getAddress nib b = some b := by
  obtain ⟨body, hb, hbeq⟩ := getAddress_shape nib s b h
  obtain ⟨hlen40, hhex40⟩ := hexBody_spec s.data body hb
  subst hbeq
  have hlow : (checksumChars (nib (body.map lowerHexChar)) 0
      (body.map lowerHexChar)).map lowerHexChar = body.map lowerHexChar := by
    rw [map_lower_checksumChars, map_lowerHexChar_idem]
  have hlen : (checksumChars (nib (body.map lowerHexChar)) 0
      (body.map lowerHexChar)).length = 40 := by
    rw [checksumChars_length, List.length_map]; exact hlen40
  have hhex : (checksumChars (nib (body.map lowerHexChar)) 0
      (body.map lowerHexChar)).all isHexChar = true :=
    checksumChars_all_hex _ _ _ (map_lower_all_hex _ hhex40)
  have hbody2 : hexBody ('0' :: 'x' :: checksumChars (nib (body.map lowerHexChar)) 0
      (body.map lowerHexChar)) =
      some (checksumChars (nib (body.map lowerHexChar)) 0 (body.map lowerHexChar)) := by
    unfold hexBody
    rw [if_pos]
    · rfl
    · simp [hlen, hhex]
  unfold getAddress
  simp only [hbody2]
  rw [hlow]
  simp

/-! ## Flow invariants (helper lemmas shared by the claims) -/

theorem connectWallet_verifiedPublishOk (env : Env) :
    verifiedPublishOk false (connectWallet env) = true := by
  obtain ⟨g, eth, ra, host, orig, nib, ch, so, vr⟩ := env
  cases eth with
  | false => rfl
  | true =>
    cases ra with
    | error e => rfl
    | ok raw =>
      cases hga : getAddress nib raw with
      | none => simp [connectWallet, hga, verifiedPublishOk]
      | some address =>
        cases ch with
        | error e =>
          simp [connectWallet, handleMetaMaskLogin, getSiweMessage, hga,
            verifiedPublishOk]
        | ok message =>
          cases so with
          | error e =>
            simp [connectWallet, handleMetaMaskLogin, getSiweMessage, signMessage,
              hga, verifiedPublishOk]
          | ok signature =>
            cases vr with
            | error e =>
              simp [connectWallet, handleMetaMaskLogin, getSiweMessage, signMessage,
                verifySignature, hga, verifiedPublishOk]
            | ok b =>
              cases b <;>
                simp [connectWallet, handleMetaMaskLogin, getSiweMessage, signMessage,
                  verifySignature, hga, verifiedPublishOk]

theorem connectWallet_navAfterPublish (env : Env) :
    navAfterPublish false (connectWallet env) = true := by
  obtain ⟨g, eth, ra, host, orig, nib, ch, so, vr⟩ := env
  cases eth with
  | false => rfl
  | true =>
    cases ra with
    | error e => rfl
    | ok raw =>
      cases hga : getAddress nib raw with
      | none => simp [connectWallet, hga, navAfterPublish]
      | some address =>
        cases ch with
        | error e =>
          simp [connectWallet, handleMetaMaskLogin, getSiweMessage, hga,
            navAfterPublish]
        | ok message =>
          cases so with
          | error e =>
            simp [connectWallet, handleMetaMaskLogin, getSiweMessage, signMessage,
              hga, navAfterPublish]
          | ok signature =>
            cases vr with
            | error e =>
              simp [connectWallet, handleMetaMaskLogin, getSiweMessage, signMessage,
                verifySignature, hga, navAfterPublish]
            | ok b =>
              cases b <;>
                simp [connectWallet, handleMetaMaskLogin, getSiweMessage, signMessage,
                  verifySignature, hga, navAfterPublish]

theorem handleGoogleAuth_navAfterPublish (env : Env) :
    navAfterPublish false (handleGoogleAuth env) = true := by
  obtain ⟨g, eth, ra, host, orig, nib, ch, so, vr⟩ := env
  cases g with
  | err code msg =>
    by_cases h₁ : code = "auth/popup-closed-by-user"
    · simp [handleGoogleAuth, h₁, navAfterPublish]
    by_cases h₂ : code = "auth/network-request-failed"
    · simp [handleGoogleAuth, h₁, h₂, navAfterPublish]
    · simp [handleGoogleAuth, h₁, h₂, navAfterPublish]
  | ok res =>
    obtain ⟨tok, dn, pu⟩ := res
    cases tok with
    | none => rfl
    | some token =>
      cases eth with
      | false => rfl
      | true =>
        cases ra with
        | error e => rfl
        | ok raw =>
          cases hga : getAddress nib raw with
          | none => simp [handleGoogleAuth, hga, navAfterPublish, googleSession]
          | some address => simp [handleGoogleAuth, hga, navAfterPublish, googleSession]

/-! ## Claims -/

/-- C1 (counterexample): it is not the case that in every flow a published
record carrying a `walletAddress` was preceded by a `success: true`
verdict from the verify endpoint: in the combined flow with a federated
success and a connected wallet, `handleGoogleAuth` dispatches the record
with the wallet address without ever calling the verify endpoint. -/
theorem claim_C1_counterexample :
    ¬ (∀ env : Env, verifiedPublishOk false (handleGoogleAuth env) = true ∧
        verifiedPublishOk false (connectWallet env) = true) := by
  intro h
  have hc := (h envCombinedHappy).1
  revert hc
  decide

/-- C1 (amended): in the wallet-only flow (`connectWallet`), every
published record that carries a `walletAddress` is published strictly
after the Signature Verifier's `success: true` verdict; the combined flow
(`handleGoogleAuth`) may publish a wallet address authenticated only by
account access. -/
theorem claim_C1 (env : Env) :
    verifiedPublishOk false (connectWallet env) = true :=
  connectWallet_verifiedPublishOk env

theorem claim_C1_witness :
    verifiedPublishOk false (connectWallet envWalletHappy) = true :=
  claim_C1 envWalletHappy

/-- C2: combined flow — federated step succeeds with a token, the wallet
connects (accounts granted, address checksums), and the verifier would
answer success: the single published record carries the federated
displayName, avatar, and token together with the wallet address. -/
theorem claim_C2 (env : Env) (res : GoogleOk) (token raw address : String)
    (hg : env.google = .ok res) (ht : res.accessToken = some token)
    (he : env.ethereumPresent = true) (hra : env.requestAccounts = .ok raw)
    (hga : getAddress env.nib raw = some address) (_hv : env.verify = .ok true) :
    publishedRecords (handleGoogleAuth env) =
      [⟨⟨res.displayName.getD "User", res.photoURL.getD googleDefaultAvatar,
         some address⟩, token⟩] := by
  simp [handleGoogleAuth, hg, ht, he, hra, hga, publishedRecords, googleSession]

theorem claim_C2_witness :
    publishedRecords (handleGoogleAuth envCombinedHappy) =
      [⟨⟨demoGoogle.displayName.getD "User",
         demoGoogle.photoURL.getD googleDefaultAvatar, some zeroAddr⟩,
        "google-token"⟩] :=
  claim_C2 envCombinedHappy demoGoogle "google-token" zeroAddr zeroAddr rfl rfl rfl rfl
    (by decide) rfl

/-- C3: wallet-only flow — wallet signs successfully and the verifier
answers success: the single published record has the connected
checksum-normalized address as `walletAddress`, the default display name
`Anonymous`, the default avatar, and the placeholder token. -/
theorem claim_C3 (env : Env) (raw address message signature : String)
    (he : env.ethereumPresent = true) (hra : env.requestAccounts = .ok raw)
    (hga : getAddress env.nib raw = some address)
    (hch : env.challenge = .ok message) (hsg : env.signOutcome = .ok signature)
    (hv : env.verify = .ok true) :
    publishedRecords (connectWallet env) =
      [⟨⟨"Anonymous", walletDefaultAvatar, some address⟩, placeholderToken⟩] := by
  simp [connectWallet, handleMetaMaskLogin, getSiweMessage, signMessage,
    verifySignature, he, hra, hga, hch, hsg, hv, publishedRecords]

theorem claim_C3_witness :
    publishedRecords (connectWallet envWalletHappy) =
      [⟨⟨"Anonymous", walletDefaultAvatar, some zeroAddr⟩, placeholderToken⟩] :=
  claim_C3 envWalletHappy zeroAddr zeroAddr "siwe-message" "siwe-signature"
    rfl rfl (by decide) rfl rfl rfl

/-- C4: wallet-only flow — the verifier answers success: false: no record
is published; the negative verdict is reported once (the
`Authentication failed!` toast of the else branch), and neither the
transport-error catch of `verifySignature` nor the catch of
`handleMetaMaskLogin` fires (the verdict is handled as a normal,
non-exceptional outcome). -/
theorem claim_C4 (env : Env) (raw address message signature : String)
    (he : env.ethereumPresent = true) (hra : env.requestAccounts = .ok raw)
    (hga : getAddress env.nib raw = some address)
    (hch : env.challenge = .ok message) (hsg : env.signOutcome = .ok signature)
    (hv : env.verify = .ok false) :
    publishedRecords (connectWallet env) = [] ∧
    (connectWallet env).count verificationDeniedReport = 1 ∧
    (connectWallet env).count verificationTransportReport = 0 ∧
    (connectWallet env).count metamaskLoginFailedReport = 0 := by
  have htr : connectWallet env =
      [.accountsPrompt,
       .post (siweMessageRequest address (env.hostname.getD "localhost")
         (env.origin.getD CLIENT_URL)),
       .signPrompt message,
       .post (verifyRequest message signature), .verifyVerdict false,
       verificationDeniedReport] := by
    simp [connectWallet, handleMetaMaskLogin, getSiweMessage, signMessage,
      verifySignature, he, hra, hga, hch, hsg, hv, verificationDeniedReport]
  rw [htr]
  refine ⟨rfl, ?_, ?_, ?_⟩ <;> rfl

theorem claim_C4_witness :
    publishedRecords (connectWallet envWalletDenied) = [] ∧
    (connectWallet envWalletDenied).count verificationDeniedReport = 1 ∧
    (connectWallet envWalletDenied).count verificationTransportReport = 0 ∧
    (connectWallet envWalletDenied).count metamaskLoginFailedReport = 0 :=
  claim_C4 envWalletDenied zeroAddr zeroAddr "siwe-message" "siwe-signature"
    rfl rfl (by decide) rfl rfl rfl

/-- C5: wallet-only flow — the challenge request fails: the signing prompt
is never shown, no record is published, and the challenge-failure report
(the catch block of `getSiweMessage`) is emitted exactly once. -/
theorem claim_C5 (env : Env) (raw address : String)
    (he : env.ethereumPresent = true) (hra : env.requestAccounts = .ok raw)
    (hga : getAddress env.nib raw = some address)
    (hch : env.challenge = .error ()) :
    hasSignPrompt (connectWallet env) = false ∧
    publishedRecords (connectWallet env) = [] ∧
    (connectWallet env).count challengeFailedReport = 1 := by
  have htr : connectWallet env =
      [.accountsPrompt,
       .post (siweMessageRequest address (env.hostname.getD "localhost")
         (env.origin.getD CLIENT_URL)),
       challengeFailedReport, metamaskLoginFailedReport] := by
    simp [connectWallet, handleMetaMaskLogin, getSiweMessage, he, hra, hga, hch,
      challengeFailedReport, metamaskLoginFailedReport]
  rw [htr]
  refine ⟨rfl, rfl, ?_⟩
  rfl

theorem claim_C5_witness :
    hasSignPrompt (connectWallet envChallengeDown) = false ∧
    publishedRecords (connectWallet envChallengeDown) = [] ∧
    (connectWallet envChallengeDown).count challengeFailedReport = 1 :=
  claim_C5 envChallengeDown zeroAddr zeroAddr rfl rfl (by decide) rfl

/-- C6: combined flow — federated step succeeds but the wallet step cannot
proceed (provider absent, prompt declined, or any other wallet-side
failure): the record with the federated fields and no wallet address is
still published and the flow navigates to the authenticated area; the
outcome (published record and navigation) is the same for every blocked
case. -/
theorem claim_C6 (env : Env) (res : GoogleOk) (token : String)
    (hg : env.google = .ok res) (ht : res.accessToken = some token)
    (hb : walletStepBlocked env = true) :
    publishedRecords (handleGoogleAuth env) =
      [⟨⟨res.displayName.getD "User", res.photoURL.getD googleDefaultAvatar, none⟩,
        token⟩] ∧
    navigations (handleGoogleAuth env) = ["/home"] := by
  unfold walletStepBlocked at hb
  cases he : env.ethereumPresent with
  | false =>
    constructor <;>
      simp [handleGoogleAuth, hg, ht, he, publishedRecords, navigations, googleSession]
  | true =>
    rw [he] at hb
    simp only [Bool.not_true, Bool.false_or] at hb
    cases hra : env.requestAccounts with
    | error e =>
      constructor <;>
        simp [handleGoogleAuth, hg, ht, he, hra, publishedRecords, navigations,
          googleSession]
    | ok raw =>
      rw [hra] at hb
      cases hga : getAddress env.nib raw with
      | none =>
        constructor <;>
          simp [handleGoogleAuth, hg, ht, he, hra, hga, publishedRecords, navigations,
            googleSession]
      | some address =>
        simp [hga] at hb

theorem claim_C6_witness :
    publishedRecords (handleGoogleAuth envWalletAbsent) =
      [⟨⟨demoGoogle.displayName.getD "User",
         demoGoogle.photoURL.getD googleDefaultAvatar, none⟩, "google-token"⟩] ∧
    navigations (handleGoogleAuth envWalletAbsent) = ["/home"] :=
  claim_C6 envWalletAbsent demoGoogle "google-token" rfl rfl (by decide)

/-- C7: in both flows, every navigation to the authenticated area happens
strictly after a session record was published; no path navigates without
a prior publication. -/
theorem claim_C7 (env : Env) :
    navAfterPublish false (handleGoogleAuth env) = true ∧
    navAfterPublish false (connectWallet env) = true :=
  ⟨handleGoogleAuth_navAfterPublish env, connectWallet_navAfterPublish env⟩

theorem claim_C7_witness :
    navAfterPublish false (handleGoogleAuth envCombinedHappy) = true ∧
    navAfterPublish false (connectWallet envCombinedHappy) = true :=
  claim_C7 envCombinedHappy

/-- C8: the wallet-only flow posts exactly two requests: the challenge
request, a POST to `/metamask/message` with JSON body
`(address, domain, uri)`, and the verify request, a POST to
`/metamask/verify` with JSON body `(message, signature)` — whose field
names are exactly `message` and `signature`, so the address is not
resent. -/
theorem claim_C8 (env : Env) (raw address message signature : String)
    (he : env.ethereumPresent = true) (hra : env.requestAccounts = .ok raw)
    (hga : getAddress env.nib raw = some address)
    (hch : env.challenge = .ok message) (hsg : env.signOutcome = .ok signature) :
    postedRequests (connectWallet env) =
      [⟨"POST", "http://localhost:3001/metamask/message",
        [("address", address), ("domain", env.hostname.getD "localhost"),
         ("uri", env.origin.getD CLIENT_URL)]⟩,
       ⟨"POST", "http://localhost:3001/metamask/verify",
        [("message", message), ("signature", signature)]⟩] ∧
    (verifyRequest message signature).body.map Prod.fst = ["message", "signature"] := by
  have hpr : postedRequests (connectWallet env) =
      [siweMessageRequest address (env.hostname.getD "localhost")
        (env.origin.getD CLIENT_URL),
       verifyRequest message signature] := by
    cases hv : env.verify with
    | error e =>
      simp [connectWallet, handleMetaMaskLogin, getSiweMessage, signMessage,
        verifySignature, he, hra, hga, hch, hsg, hv, postedRequests]
    | ok b =>
      cases b <;>
        simp [connectWallet, handleMetaMaskLogin, getSiweMessage, signMessage,
          verifySignature, he, hra, hga, hch, hsg, hv, postedRequests]
  refine ⟨?_, rfl⟩
  rw [hpr]
  rfl

theorem claim_C8_witness :
    postedRequests (connectWallet envWalletHappy) =
      [⟨"POST", "http://localhost:3001/metamask/message",
        [("address", zeroAddr), ("domain", "localhost"), ("uri", CLIENT_URL)]⟩,
       ⟨"POST", "http://localhost:3001/metamask/verify",
        [("message", "siwe-message"), ("signature", "siwe-signature")]⟩] ∧
    (verifyRequest "siwe-message" "siwe-signature").body.map Prod.fst =
      ["message", "signature"] :=
  claim_C8 envWalletHappy zeroAddr zeroAddr "siwe-message" "siwe-signature"
    rfl rfl (by decide) rfl rfl

/-- C9: the checksum normalization used by the Wallet Connector is
idempotent: whenever `getAddress` accepts an address and returns its
checksummed form, running `getAddress` on that form returns it unchanged
(for any hash nibble oracle, hence for keccak-256). -/
theorem claim_C9 (nib : List Char → Nat → Nat) (a b : String)
    (h : getAddress nib a = some b) : getAddress nib b = some b :=
  getAddress_idem nib a b h

theorem claim_C9_witness :
    getAddress zeroNib upperAAddr = some lowerAAddr ∧
    getAddress zeroNib lowerAAddr = some lowerAAddr :=
  ⟨by decide, claim_C9 zeroNib upperAAddr lowerAAddr (by decide)⟩

/-- C10: combined flow — the federated step itself fails (popup rejected
with any error code, or credential without access token): nothing is
published, no navigation occurs, and the trace consists of toast
notifications only. -/
theorem claim_C10 (env : Env)
    (h : (∃ code msg, env.google = .err code msg) ∨
         ∃ res, env.google = .ok res ∧ res.accessToken = none) :
    publishedRecords (handleGoogleAuth env) = [] ∧
    navigations (handleGoogleAuth env) = [] ∧
    (handleGoogleAuth env).all isToastEvent = true := by
  rcases h with ⟨code, msg, hg⟩ | ⟨res, hg, ht⟩
  · by_cases h₁ : code = "auth/popup-closed-by-user"
    · simp [handleGoogleAuth, hg, h₁, publishedRecords, navigations, isToastEvent]
    by_cases h₂ : code = "auth/network-request-failed"
    · simp [handleGoogleAuth, hg, h₁, h₂, publishedRecords, navigations, isToastEvent]
    · simp [handleGoogleAuth, hg, h₁, h₂, publishedRecords, navigations, isToastEvent]
  · simp [handleGoogleAuth, hg, ht, publishedRecords, navigations, isToastEvent]

theorem claim_C10_witness :
    publishedRecords (handleGoogleAuth envGoogleClosed) = [] ∧
    navigations (handleGoogleAuth envGoogleClosed) = [] ∧
    (handleGoogleAuth envGoogleClosed).all isToastEvent = true :=
  claim_C10 envGoogleClosed (Or.inl ⟨"auth/popup-closed-by-user", "popup closed", rfl⟩)
